import Mathlib

/-!
Shallow embedding of `src/vhost_kern/vdpa.rs` (the kernel vhost-vdpa backend
of the vhost crate): the `VhostKernVdpa` handle and its `VhostVdpa`
control operations.

The kernel side of each ioctl is modelled as an oracle function supplied as a
parameter: it receives the request code and the value the operation points it
at, and returns the `c_int` return value (and, for read-style requests, the
value it wrote through the pointer).  Each operation also records a trace of
the memory/ioctl events it performs, in source order, so that ordering and
resource-release properties can be stated.
-/

namespace Vdpa

/-- Errors of the vhost crate.  The `Error` enum itself lives outside the
sources (`src/lib.rs` of the crate); modelled from the spec error taxonomy:
(a) open failure wrapping the OS error (`Error::VhostOpen` is applied in
`VhostKernVdpa::new`), (b) kernel-request failure wrapping the raw OS error,
(c) deterministic unsupported-operation rejection distinct from (a) and (b).
OS error numbers are represented as `Nat`. -/
inductive VhostError where
  | VhostOpen (os : Nat)
  | IoctlError (os : Nat)
  | InvalidOperation
  deriving DecidableEq

/-- Discriminator for the kernel-request-failure error kind. -/
def VhostError.isIoctlError : VhostError → Bool
  | .IoctlError _ => true
  | _ => false

/-- Discriminator for the open-failure error kind. -/
def VhostError.isVhostOpen : VhostError → Bool
  | .VhostOpen _ => true
  | _ => false

/-- Modelled from the spec: `ioctl_result` lives in `src/vhost_kern/mod.rs`,
outside the sources.  Per the spec, a negative kernel return code is
translated into an operation failure wrapping the raw OS error, and a
successful return yields the typed value untouched. -/
def ioctl_result {α : Type} (ret : Int) (oserr : Nat) (v : α) : Except VhostError α :=
  if ret < 0 then Except.error (VhostError.IoctlError oserr) else Except.ok v

/-- Modelled from the spec: the fixed ioctl request-code encoding of the
kernel UAPI (`_IOR`/`_IOW` over the VHOST_VIRTIO magic 0xAF), used because
`src/vhost_kern/vhost_binding.rs` is outside the sources.  `dir` is the
direction bits, `size` the payload size, `nr` the sequence number from
`linux/vhost.h`. -/
def ioctlCode (dir size nr : Nat) : Nat := dir * 2 ^ 30 + size * 2 ^ 16 + 0xAF * 2 ^ 8 + nr

/-- VHOST_VDPA_GET_DEVICE_ID: read a `u32` device id (UAPI nr 0x70). -/
def VHOST_VDPA_GET_DEVICE_ID : Nat := ioctlCode 2 4 0x70

/-- VHOST_VDPA_GET_STATUS: read a `u8` status (UAPI nr 0x71). -/
def VHOST_VDPA_GET_STATUS : Nat := ioctlCode 2 1 0x71

/-- VHOST_VDPA_SET_STATUS: write a `u8` status (UAPI nr 0x72). -/
def VHOST_VDPA_SET_STATUS : Nat := ioctlCode 1 1 0x72

/-- VHOST_VDPA_GET_CONFIG: read configuration bytes (UAPI nr 0x73). -/
def VHOST_VDPA_GET_CONFIG : Nat := ioctlCode 2 8 0x73

/-- VHOST_VDPA_SET_CONFIG: write configuration bytes (UAPI nr 0x74). -/
def VHOST_VDPA_SET_CONFIG : Nat := ioctlCode 1 8 0x74

/-- VHOST_VDPA_SET_VRING_ENABLE: write a `vhost_vring_state` (UAPI nr 0x75). -/
def VHOST_VDPA_SET_VRING_ENABLE : Nat := ioctlCode 1 8 0x75

/-- VHOST_VDPA_GET_VRING_NUM: read a `u16` max ring size (UAPI nr 0x76). -/
def VHOST_VDPA_GET_VRING_NUM : Nat := ioctlCode 2 2 0x76

/-- VHOST_VDPA_SET_CONFIG_CALL: write a `c_int` eventfd (UAPI nr 0x77). -/
def VHOST_VDPA_SET_CONFIG_CALL : Nat := ioctlCode 1 4 0x77

/-- VHOST_VDPA_GET_IOVA_RANGE: read a `vhost_vdpa_iova_range` (UAPI nr 0x78). -/
def VHOST_VDPA_GET_IOVA_RANGE : Nat := ioctlCode 2 16 0x78

/-- One memory or kernel-request event performed by an operation, recorded in
source order.  Payloads record the values the source writes at that step. -/
inductive Event where
  | allocBlock (size align : Nat)
  | writeHeaderOff (v : Nat)
  | writeHeaderLen (v : Nat)
  | fillTrailing (n : Nat)
  | issueIoctl (code : Nat)
  | drainTrailing (n : Nat)
  | deallocBlock (size : Nat)
  deriving DecidableEq

/-- Is the event a raw-block allocation. -/
def Event.isAlloc : Event → Bool
  | .allocBlock _ _ => true
  | _ => false

/-- Is the event the write of the header `off` field. -/
def Event.isWriteOff : Event → Bool
  | .writeHeaderOff _ => true
  | _ => false

/-- Is the event the write of the header `len` field. -/
def Event.isWriteLen : Event → Bool
  | .writeHeaderLen _ => true
  | _ => false

/-- Is the event the copy of the caller buffer into the trailing region. -/
def Event.isFill : Event → Bool
  | .fillTrailing _ => true
  | _ => false

/-- Is the event a kernel request. -/
def Event.isIoctl : Event → Bool
  | .issueIoctl _ => true
  | _ => false

/-- Is the event the copy of the trailing region into the caller buffer. -/
def Event.isDrain : Event → Bool
  | .drainTrailing _ => true
  | _ => false

/-- Is the event a raw-block deallocation. -/
def Event.isDealloc : Event → Bool
  | .deallocBlock _ => true
  | _ => false

/-- `vhost_vring_state` from the vhost UAPI: two `u32` fields. -/
structure vhost_vring_state where
  index : Nat
  num : Nat
  deriving DecidableEq

/-- `vhost_vdpa_iova_range` from the vdpa UAPI: two `u64` fields. -/
structure vhost_vdpa_iova_range where
  first : Nat
  last : Nat
  deriving DecidableEq

/-- `VhostVdpaIovaRange`, the typed result of `get_iova_range`. -/
structure VhostVdpaIovaRange where
  first : Nat
  last : Nat
  deriving DecidableEq

/-- `vhost_vdpa_config` from the vdpa UAPI: header `off : u32`, `len : u32`,
then a flexible trailing byte array.  `buf` is the trailing region. -/
structure vhost_vdpa_config where
  off : Nat
  len : Nat
  buf : List Nat
  deriving DecidableEq

/-- `mem::size_of::<vhost_vdpa_config>()`: two packed `u32` header fields,
the flexible array member contributing no size. -/
def vhost_vdpa_config_header_size : Nat := 8

/-- Outcome of one scalar control operation: the request code issued, the
payload value at the pointer when the request is issued, the event trace,
the raw `c_int` return value and the translated result. -/
structure OpOut (π ρ : Type) where
  reqCode : Nat
  sent : π
  trace : List Event
  ret : Int
  result : Except VhostError ρ

/-- Outcome of a variable-length configuration transfer: the event trace,
the block as passed to the kernel, the block after the kernel request, the
raw return value, the caller buffer after the call, and the result. -/
structure ConfigOut where
  trace : List Event
  sentBlock : vhost_vdpa_config
  retBlock : vhost_vdpa_config
  ret : Int
  buffer : List Nat
  result : Except VhostError Unit

/-- `get_device_id` (vdpa.rs lines 44-48): stack `u32` initialised to 0,
one `ioctl_with_mut_ref` under `VHOST_VDPA_GET_DEVICE_ID`, result via
`ioctl_result`.  The kernel oracle returns the return code and the `u32` it
wrote through the pointer. -/
def get_device_id (kern : Nat → Nat → Int × Nat) (oserr : Nat) : OpOut Nat Nat :=
  let r := kern VHOST_VDPA_GET_DEVICE_ID 0
  { reqCode := VHOST_VDPA_GET_DEVICE_ID
    sent := 0
    trace := [Event.issueIoctl VHOST_VDPA_GET_DEVICE_ID]
    ret := r.1
    result := ioctl_result r.1 oserr (r.2 % 2 ^ 32) }

/-- `get_status` (vdpa.rs lines 50-54): stack `u8` initialised to 0, one
`ioctl_with_mut_ref` under `VHOST_VDPA_GET_STATUS`. -/
def get_status (kern : Nat → Nat → Int × Nat) (oserr : Nat) : OpOut Nat Nat :=
  let r := kern VHOST_VDPA_GET_STATUS 0
  { reqCode := VHOST_VDPA_GET_STATUS
    sent := 0
    trace := [Event.issueIoctl VHOST_VDPA_GET_STATUS]
    ret := r.1
    result := ioctl_result r.1 oserr (r.2 % 2 ^ 8) }

/-- `set_status` (vdpa.rs lines 56-59): one `ioctl_with_ref` under
`VHOST_VDPA_SET_STATUS` with the caller's `u8`. -/
def set_status (kern : Nat → Nat → Int) (oserr : Nat) (status : Nat) : OpOut Nat Unit :=
  let ret := kern VHOST_VDPA_SET_STATUS status
  { reqCode := VHOST_VDPA_SET_STATUS
    sent := status
    trace := [Event.issueIoctl VHOST_VDPA_SET_STATUS]
    ret := ret
    result := ioctl_result ret oserr () }

/-- `get_config` (vdpa.rs lines 61-81): compute the layout of
`size_of::<vhost_vdpa_config>() + buffer.len()` bytes at align 1, allocate,
write `off` then `len` (the `usize` length cast to `u32`), issue
`VHOST_VDPA_GET_CONFIG` with a pointer to the block, copy `buffer.len()`
bytes from the trailing region into the caller buffer unconditionally, then
deallocate unconditionally; the result is `ioctl_result ret ()`.  `fresh i`
gives byte `i` of the freshly allocated (uninitialised) trailing region; the
kernel oracle returns the return code and the block as it leaves it in
memory. -/
def get_config (kern : Nat → vhost_vdpa_config → Int × vhost_vdpa_config)
    (oserr : Nat) (offset : Nat) (buffer : List Nat) (fresh : Nat → Nat) : ConfigOut :=
  let buffer_len := buffer.length
  let size := vhost_vdpa_config_header_size + buffer_len
  let block0 : vhost_vdpa_config :=
    { off := offset, len := buffer_len % 2 ^ 32, buf := (List.range buffer_len).map fresh }
  let r := kern VHOST_VDPA_GET_CONFIG block0
  { trace := [Event.allocBlock size 1,
              Event.writeHeaderOff offset,
              Event.writeHeaderLen (buffer_len % 2 ^ 32),
              Event.issueIoctl VHOST_VDPA_GET_CONFIG,
              Event.drainTrailing buffer_len,
              Event.deallocBlock size]
    sentBlock := block0
    retBlock := r.2
    ret := r.1
    buffer := r.2.buf.take buffer_len
    result := ioctl_result r.1 oserr () }

/-- `set_config` (vdpa.rs lines 83-106): same layout and header writes as
`get_config`, then the caller buffer is copied into the trailing region
before `VHOST_VDPA_SET_CONFIG` is issued, and the block is deallocated
unconditionally. -/
def set_config (kern : Nat → vhost_vdpa_config → Int × vhost_vdpa_config)
    (oserr : Nat) (offset : Nat) (buffer : List Nat) : ConfigOut :=
  let buffer_len := buffer.length
  let size := vhost_vdpa_config_header_size + buffer_len
  let block0 : vhost_vdpa_config :=
    { off := offset, len := buffer_len % 2 ^ 32, buf := buffer }
  let r := kern VHOST_VDPA_SET_CONFIG block0
  { trace := [Event.allocBlock size 1,
              Event.writeHeaderOff offset,
              Event.writeHeaderLen (buffer_len % 2 ^ 32),
              Event.fillTrailing buffer_len,
              Event.issueIoctl VHOST_VDPA_SET_CONFIG,
              Event.deallocBlock size]
    sentBlock := block0
    retBlock := r.2
    ret := r.1
    buffer := buffer
    result := ioctl_result r.1 oserr () }

/-- `set_vring_enable` (vdpa.rs lines 108-116): build a `vhost_vring_state`
with `index = queue_index as u32` and `num = enabled as u32`, then one
`ioctl_with_ref` under `VHOST_VDPA_SET_VRING_ENABLE`.  No bound on
`queue_index` is checked. -/
def set_vring_enable (kern : Nat → vhost_vring_state → Int) (oserr : Nat)
    (queue_index : Nat) (enabled : Bool) : OpOut vhost_vring_state Unit :=
  let vring_state : vhost_vring_state :=
    { index := queue_index % 2 ^ 32, num := if enabled then 1 else 0 }
  let ret := kern VHOST_VDPA_SET_VRING_ENABLE vring_state
  { reqCode := VHOST_VDPA_SET_VRING_ENABLE
    sent := vring_state
    trace := [Event.issueIoctl VHOST_VDPA_SET_VRING_ENABLE]
    ret := ret
    result := ioctl_result ret oserr () }

/-- `get_vring_num` (vdpa.rs lines 118-122): stack `u16` initialised to 0,
one `ioctl_with_mut_ref` under `VHOST_VDPA_GET_VRING_NUM`. -/
def get_vring_num (kern : Nat → Nat → Int × Nat) (oserr : Nat) : OpOut Nat Nat :=
  let r := kern VHOST_VDPA_GET_VRING_NUM 0
  { reqCode := VHOST_VDPA_GET_VRING_NUM
    sent := 0
    trace := [Event.issueIoctl VHOST_VDPA_GET_VRING_NUM]
    ret := r.1
    result := ioctl_result r.1 oserr (r.2 % 2 ^ 16) }

/-- `set_config_call` (vdpa.rs lines 124-128): the eventfd's raw descriptor
as `c_int`, one `ioctl_with_ref` under `VHOST_VDPA_SET_CONFIG_CALL`. -/
def set_config_call (kern : Nat → Int → Int) (oserr : Nat) (event_fd : Int) : OpOut Int Unit :=
  let ret := kern VHOST_VDPA_SET_CONFIG_CALL event_fd
  { reqCode := VHOST_VDPA_SET_CONFIG_CALL
    sent := event_fd
    trace := [Event.issueIoctl VHOST_VDPA_SET_CONFIG_CALL]
    ret := ret
    result := ioctl_result ret oserr () }

/-- `get_iova_range` (vdpa.rs lines 130-142): stack
`vhost_vdpa_iova_range { first: 0, last: 0 }`, one `ioctl_with_mut_ref`
issued — as in the source — under `VHOST_VDPA_GET_VRING_NUM()`, then the
fields are repackaged into a `VhostVdpaIovaRange`. -/
def get_iova_range (kern : Nat → vhost_vdpa_iova_range → Int × vhost_vdpa_iova_range)
    (oserr : Nat) : OpOut vhost_vdpa_iova_range VhostVdpaIovaRange :=
  let low_iova_range : vhost_vdpa_iova_range := { first := 0, last := 0 }
  let r := kern VHOST_VDPA_GET_VRING_NUM low_iova_range
  { reqCode := VHOST_VDPA_GET_VRING_NUM
    sent := low_iova_range
    trace := [Event.issueIoctl VHOST_VDPA_GET_VRING_NUM]
    ret := r.1
    result := ioctl_result r.1 oserr
      { first := r.2.first % 2 ^ 64, last := r.2.last % 2 ^ 64 } }

/-- `VhostUserDirtyLogRegion`, the optional dirty-log region argument of
`set_log_base` (declared outside the sources; shape as used by the tests in
vdpa.rs: `mmap_size`, `mmap_offset`, `mmap_handle`). -/
structure VhostUserDirtyLogRegion where
  mmap_size : Nat
  mmap_offset : Nat
  mmap_handle : Int
  deriving DecidableEq

/-- Modelled from the spec: `set_log_base` belongs to the generic
kernel-backend capability (`src/vhost_kern/mod.rs`), which is outside the
sources.  Per the spec, dirty-page logging is not supported by the vdpa
device class, so the call fails deterministically for every argument with an
unsupported-operation error distinct from an ordinary ioctl failure. -/
def set_log_base (base : Nat) (region : Option VhostUserDirtyLogRegion) :
    Except VhostError Unit :=
  Except.error VhostError.InvalidOperation

/-- Modelled from the spec: `set_log_fd` belongs to the generic
kernel-backend capability, outside the sources; like `set_log_base` it fails
deterministically for every argument with an unsupported-operation error. -/
def set_log_fd (fd : Int) : Except VhostError Unit :=
  Except.error VhostError.InvalidOperation

/-- `libc::O_CLOEXEC` on Linux. -/
def O_CLOEXEC : Nat := 0o2000000

/-- `libc::O_NONBLOCK` on Linux. -/
def O_NONBLOCK : Nat := 0o4000

/-- The options `VhostKernVdpa::new` passes to `OpenOptions`: read and write
access plus the custom flag bits `O_CLOEXEC | O_NONBLOCK`. -/
structure OpenFlags where
  read : Bool
  write : Bool
  custom_flags : Nat
  deriving DecidableEq

/-- The exact open options built in vdpa.rs lines 32-36:
`.read(true).write(true).custom_flags(libc::O_CLOEXEC | libc::O_NONBLOCK)`. -/
def open_flags : OpenFlags :=
  { read := true, write := true, custom_flags := O_CLOEXEC ||| O_NONBLOCK }

/-- The `VhostKernVdpa` handle: an owned descriptor and the guest
address-space reference (vdpa.rs lines 23-26). -/
structure VhostKernVdpa (AS : Type) where
  fd : Nat
  mem : AS

/-- `VhostKernVdpa::new` (vdpa.rs lines 30-40): open `path` with
`open_flags`; an OS failure is wrapped in `Error::VhostOpen`, success stores
the descriptor and the address-space reference.  The OS `open` is the oracle
`os`, returning either the new descriptor or the OS error number. -/
def VhostKernVdpa.new {AS : Type} (os : OpenFlags → String → Except Nat Nat)
    (path : String) (mem : AS) : Except VhostError (VhostKernVdpa AS) :=
  match os open_flags path with
  | Except.error e => Except.error (VhostError.VhostOpen e)
  | Except.ok fd => Except.ok { fd := fd, mem := mem }

/-! ## Helper lemmas -/

/-- The trace of `get_config`, in source order. -/
theorem get_config_trace (kern : Nat → vhost_vdpa_config → Int × vhost_vdpa_config)
    (oserr offset : Nat) (buffer : List Nat) (fresh : Nat → Nat) :
    (get_config kern oserr offset buffer fresh).trace =
      [Event.allocBlock (vhost_vdpa_config_header_size + buffer.length) 1,
       Event.writeHeaderOff offset,
       Event.writeHeaderLen (buffer.length % 2 ^ 32),
       Event.issueIoctl VHOST_VDPA_GET_CONFIG,
       Event.drainTrailing buffer.length,
       Event.deallocBlock (vhost_vdpa_config_header_size + buffer.length)] := rfl

/-- The trace of `set_config`, in source order. -/
theorem set_config_trace (kern : Nat → vhost_vdpa_config → Int × vhost_vdpa_config)
    (oserr offset : Nat) (buffer : List Nat) :
    (set_config kern oserr offset buffer).trace =
      [Event.allocBlock (vhost_vdpa_config_header_size + buffer.length) 1,
       Event.writeHeaderOff offset,
       Event.writeHeaderLen (buffer.length % 2 ^ 32),
       Event.fillTrailing buffer.length,
       Event.issueIoctl VHOST_VDPA_SET_CONFIG,
       Event.deallocBlock (vhost_vdpa_config_header_size + buffer.length)] := rfl

/-- The block `get_config` hands to the kernel. -/
theorem get_config_sentBlock (kern : Nat → vhost_vdpa_config → Int × vhost_vdpa_config)
    (oserr offset : Nat) (buffer : List Nat) (fresh : Nat → Nat) :
    (get_config kern oserr offset buffer fresh).sentBlock =
      { off := offset, len := buffer.length % 2 ^ 32,
        buf := (List.range buffer.length).map fresh } := rfl

/-- The block `set_config` hands to the kernel. -/
theorem set_config_sentBlock (kern : Nat → vhost_vdpa_config → Int × vhost_vdpa_config)
    (oserr offset : Nat) (buffer : List Nat) :
    (set_config kern oserr offset buffer).sentBlock =
      { off := offset, len := buffer.length % 2 ^ 32, buf := buffer } := rfl

/-- The `len` header field `get_config` writes, as a function of the caller
buffer: the `usize` length cast to `u32`. -/
theorem get_config_len (kern : Nat → vhost_vdpa_config → Int × vhost_vdpa_config)
    (oserr offset : Nat) (buffer : List Nat) (fresh : Nat → Nat) :
    (get_config kern oserr offset buffer fresh).sentBlock.len = buffer.length % 2 ^ 32 := rfl

/-! ## Claim theorems -/

/-- Claim C1: the source of `get_iova_range` (vdpa.rs line 134) issues its
kernel request under `VHOST_VDPA_GET_VRING_NUM`, the request code of
`get_vring_num`, which differs from the IOVA-range request code
`VHOST_VDPA_GET_IOVA_RANGE` defined by the kernel vdpa UAPI — so the claim
that each operation issues its own fixed code is violated by the code. -/
theorem get_iova_range_uses_vring_num_code :
    (get_iova_range (fun _ r => (0, r)) 0).reqCode = VHOST_VDPA_GET_VRING_NUM
    ∧ (get_iova_range (fun _ r => (0, r)) 0).reqCode
        = (get_vring_num (fun _ v => (0, v)) 0).reqCode
    ∧ ((VHOST_VDPA_GET_VRING_NUM == VHOST_VDPA_GET_IOVA_RANGE) = false)
    ∧ (((get_iova_range (fun _ r => (0, r)) 0).reqCode == VHOST_VDPA_GET_IOVA_RANGE)
        = false) :=
  ⟨rfl, rfl, by decide, by decide⟩

/-- Claim C2: for every offset and caller buffer, `get_config` issues the
kernel request strictly before draining the trailing region into the caller
buffer (and drains exactly `buffer.length` bytes), `set_config` fills the
trailing region from the caller buffer (exactly `buffer.length` bytes)
strictly before issuing the kernel request, and in both operations the
header `off` and `len` writes come before the trailing region is filled or
drained. -/
theorem config_transfer_order
    (kern kern2 : Nat → vhost_vdpa_config → Int × vhost_vdpa_config)
    (oserr oserr2 offset offset2 : Nat) (buffer buffer2 : List Nat) (fresh : Nat → Nat) :
    ((get_config kern oserr offset buffer fresh).trace.findIdx Event.isIoctl
        < (get_config kern oserr offset buffer fresh).trace.findIdx Event.isDrain)
    ∧ ((get_config kern oserr offset buffer fresh).trace.findIdx Event.isWriteOff
        < (get_config kern oserr offset buffer fresh).trace.findIdx Event.isDrain)
    ∧ ((get_config kern oserr offset buffer fresh).trace.findIdx Event.isWriteLen
        < (get_config kern oserr offset buffer fresh).trace.findIdx Event.isDrain)
    ∧ Event.drainTrailing buffer.length ∈ (get_config kern oserr offset buffer fresh).trace
    ∧ ((set_config kern2 oserr2 offset2 buffer2).trace.findIdx Event.isFill
        < (set_config kern2 oserr2 offset2 buffer2).trace.findIdx Event.isIoctl)
    ∧ ((set_config kern2 oserr2 offset2 buffer2).trace.findIdx Event.isWriteOff
        < (set_config kern2 oserr2 offset2 buffer2).trace.findIdx Event.isFill)
    ∧ ((set_config kern2 oserr2 offset2 buffer2).trace.findIdx Event.isWriteLen
        < (set_config kern2 oserr2 offset2 buffer2).trace.findIdx Event.isFill)
    ∧ Event.fillTrailing buffer2.length ∈ (set_config kern2 oserr2 offset2 buffer2).trace := by
  refine ⟨of_decide_eq_true rfl, of_decide_eq_true rfl, of_decide_eq_true rfl, ?_,
    of_decide_eq_true rfl, of_decide_eq_true rfl, of_decide_eq_true rfl, ?_⟩
  · rw [get_config_trace]
    simp
  · rw [set_config_trace]
    simp

/-- Claim C3 counterexample: at a caller slice of length `2 ^ 32` the `len`
header field written by `get_config` is `0`, not the slice length — the
`usize → u32` cast truncates, so the claimed equality for every possible
slice length is false. -/
theorem config_len_field_truncates :
    ((get_config (fun _ b => (0, b)) 0 0 (List.replicate (2 ^ 32) 0)
        (fun _ => 0)).sentBlock.len = 0)
    ∧ ((List.replicate (2 ^ 32) (0 : Nat)).length = 2 ^ 32)
    ∧ (((0 : Nat) == 2 ^ 32) = false) :=
  ⟨Eq.trans
      (Eq.trans
        (get_config_len (fun _ b => (0, b)) 0 0 (List.replicate (2 ^ 32) 0) (fun _ => 0))
        (congrArg (fun n => n % 2 ^ 32) (List.length_replicate (2 ^ 32) 0)))
      (Nat.mod_self (2 ^ 32)),
   List.length_replicate (2 ^ 32) 0,
   by decide⟩

/-- Claim C3 amended: the `len` header field written by `get_config` and
`set_config` equals the caller slice length reduced modulo `2 ^ 32`; in
particular it equals the slice length exactly whenever that length is below
`2 ^ 32`. -/
theorem config_len_field_mod
    (kern kern2 : Nat → vhost_vdpa_config → Int × vhost_vdpa_config)
    (oserr oserr2 offset offset2 : Nat) (buffer buffer2 : List Nat) (fresh : Nat → Nat) :
    ((get_config kern oserr offset buffer fresh).sentBlock.len = buffer.length % 2 ^ 32)
    ∧ ((set_config kern2 oserr2 offset2 buffer2).sentBlock.len = buffer2.length % 2 ^ 32)
    ∧ (buffer.length < 2 ^ 32 →
        (get_config kern oserr offset buffer fresh).sentBlock.len = buffer.length)
    ∧ (buffer2.length < 2 ^ 32 →
        (set_config kern2 oserr2 offset2 buffer2).sentBlock.len = buffer2.length) := by
  refine ⟨rfl, rfl, ?_, ?_⟩
  · intro h
    rw [get_config_sentBlock]
    exact Nat.mod_eq_of_lt h
  · intro h
    rw [set_config_sentBlock]
    exact Nat.mod_eq_of_lt h

/-- Claim C3 amended, witness: at the concrete slice `[1, 2, 3]` (length
below `2 ^ 32`) the header `len` field equals the slice length exactly. -/
theorem config_len_field_mod_witness :
    ([(1 : Nat), 2, 3].length < 2 ^ 32)
    ∧ ((get_config (fun _ b => (0, b)) 0 0 [1, 2, 3] (fun _ => 0)).sentBlock.len
        = [(1 : Nat), 2, 3].length)
    ∧ ([(4 : Nat), 5].length < 2 ^ 32)
    ∧ ((set_config (fun _ b => (0, b)) 0 0 [4, 5]).sentBlock.len = [(4 : Nat), 5].length) :=
  ⟨by decide,
   (config_len_field_mod (fun _ b => (0, b)) (fun _ b => (0, b)) 0 0 0 0 [1, 2, 3] [4, 5]
      (fun _ => 0)).2.2.1 (by decide),
   by decide,
   (config_len_field_mod (fun _ b => (0, b)) (fun _ b => (0, b)) 0 0 0 0 [1, 2, 3] [4, 5]
      (fun _ => 0)).2.2.2 (by decide)⟩

/-- Claim C4: `get_config` and `set_config` each perform exactly one
allocation and exactly one deallocation, of the same size, the deallocation
comes after the allocation and is the last event before returning — for
every kernel oracle, so on failed requests as well as successful ones. -/
theorem config_dealloc_every_path
    (kern kern2 : Nat → vhost_vdpa_config → Int × vhost_vdpa_config)
    (oserr oserr2 offset offset2 : Nat) (buffer buffer2 : List Nat) (fresh : Nat → Nat) :
    ((get_config kern oserr offset buffer fresh).trace.countP Event.isAlloc = 1)
    ∧ ((get_config kern oserr offset buffer fresh).trace.countP Event.isDealloc = 1)
    ∧ ((get_config kern oserr offset buffer fresh).trace.findIdx Event.isAlloc
        < (get_config kern oserr offset buffer fresh).trace.findIdx Event.isDealloc)
    ∧ ((get_config kern oserr offset buffer fresh).trace.getLast? =
        some (Event.deallocBlock (vhost_vdpa_config_header_size + buffer.length)))
    ∧ ((set_config kern2 oserr2 offset2 buffer2).trace.countP Event.isAlloc = 1)
    ∧ ((set_config kern2 oserr2 offset2 buffer2).trace.countP Event.isDealloc = 1)
    ∧ ((set_config kern2 oserr2 offset2 buffer2).trace.findIdx Event.isAlloc
        < (set_config kern2 oserr2 offset2 buffer2).trace.findIdx Event.isDealloc)
    ∧ ((set_config kern2 oserr2 offset2 buffer2).trace.getLast? =
        some (Event.deallocBlock (vhost_vdpa_config_header_size + buffer2.length))) :=
  ⟨rfl, rfl, of_decide_eq_true rfl, rfl, rfl, rfl, of_decide_eq_true rfl, rfl⟩

/-- Claim C5: `set_log_base` and `set_log_fd` fail for every argument with
the unsupported-operation error, which is a different error kind from an
ordinary ioctl failure (and from an open failure). -/
theorem log_ops_unsupported (base : Nat) (region : Option VhostUserDirtyLogRegion)
    (fd : Int) :
    (set_log_base base region = Except.error VhostError.InvalidOperation)
    ∧ (set_log_fd fd = Except.error VhostError.InvalidOperation)
    ∧ (VhostError.InvalidOperation.isIoctlError = false)
    ∧ (VhostError.InvalidOperation.isVhostOpen = false) :=
  ⟨rfl, rfl, rfl, rfl⟩

/-- Claim C6: every scalar control operation — `get_device_id`, `get_status`,
`set_status`, `get_vring_num`, `set_vring_enable`, `set_config_call`,
`get_iova_range` — issues exactly one kernel request per call, and its
result is exactly: the typed value (or unit) the kernel produced when the
return code is non-negative, and otherwise the raw OS error wrapped as an
`IoctlError`, with no retry at this layer. -/
theorem scalar_ops_single_ioctl
    (kid kst kvn : Nat → Nat → Int × Nat) (kss : Nat → Nat → Int)
    (kve : Nat → vhost_vring_state → Int) (kcc : Nat → Int → Int)
    (kir : Nat → vhost_vdpa_iova_range → Int × vhost_vdpa_iova_range)
    (oserr status queue_index : Nat) (enabled : Bool) (event_fd : Int) :
    ((get_device_id kid oserr).trace.countP Event.isIoctl = 1)
    ∧ ((get_device_id kid oserr).result =
        if (get_device_id kid oserr).ret < 0
        then Except.error (VhostError.IoctlError oserr)
        else Except.ok ((kid VHOST_VDPA_GET_DEVICE_ID 0).2 % 2 ^ 32))
    ∧ ((get_status kst oserr).trace.countP Event.isIoctl = 1)
    ∧ ((get_status kst oserr).result =
        if (get_status kst oserr).ret < 0
        then Except.error (VhostError.IoctlError oserr)
        else Except.ok ((kst VHOST_VDPA_GET_STATUS 0).2 % 2 ^ 8))
    ∧ ((set_status kss oserr status).trace.countP Event.isIoctl = 1)
    ∧ ((set_status kss oserr status).result =
        if (set_status kss oserr status).ret < 0
        then Except.error (VhostError.IoctlError oserr)
        else Except.ok ())
    ∧ ((get_vring_num kvn oserr).trace.countP Event.isIoctl = 1)
    ∧ ((get_vring_num kvn oserr).result =
        if (get_vring_num kvn oserr).ret < 0
        then Except.error (VhostError.IoctlError oserr)
        else Except.ok ((kvn VHOST_VDPA_GET_VRING_NUM 0).2 % 2 ^ 16))
    ∧ ((set_vring_enable kve oserr queue_index enabled).trace.countP Event.isIoctl = 1)
    ∧ ((set_vring_enable kve oserr queue_index enabled).result =
        if (set_vring_enable kve oserr queue_index enabled).ret < 0
        then Except.error (VhostError.IoctlError oserr)
        else Except.ok ())
    ∧ ((set_config_call kcc oserr event_fd).trace.countP Event.isIoctl = 1)
    ∧ ((set_config_call kcc oserr event_fd).result =
        if (set_config_call kcc oserr event_fd).ret < 0
        then Except.error (VhostError.IoctlError oserr)
        else Except.ok ())
    ∧ ((get_iova_range kir oserr).trace.countP Event.isIoctl = 1)
    ∧ ((get_iova_range kir oserr).result =
        if (get_iova_range kir oserr).ret < 0
        then Except.error (VhostError.IoctlError oserr)
        else Except.ok { first := (kir VHOST_VDPA_GET_VRING_NUM
                                    { first := 0, last := 0 }).2.first % 2 ^ 64,
                         last := (kir VHOST_VDPA_GET_VRING_NUM
                                    { first := 0, last := 0 }).2.last % 2 ^ 64 }) :=
  ⟨rfl, rfl, rfl, rfl, rfl, rfl, rfl, rfl, rfl, rfl, rfl, rfl, rfl, rfl⟩

/-- Claim C7: for every requested buffer length, including length 0,
`get_config` and `set_config` allocate their request block as the very first
event, with total size exactly `vhost_vdpa_config_header_size + n` at 1-byte
alignment; and for every length — so in particular for the empty buffer —
the header `off` write precedes the `len` write, which precedes any touch of
the trailing region. -/
theorem config_block_size_exact
    (kern kern2 : Nat → vhost_vdpa_config → Int × vhost_vdpa_config)
    (oserr oserr2 offset offset2 : Nat) (buffer buffer2 : List Nat) (fresh : Nat → Nat) :
    ((get_config kern oserr offset buffer fresh).trace.head? =
        some (Event.allocBlock (vhost_vdpa_config_header_size + buffer.length) 1))
    ∧ ((set_config kern2 oserr2 offset2 buffer2).trace.head? =
        some (Event.allocBlock (vhost_vdpa_config_header_size + buffer2.length) 1))
    ∧ ((get_config kern oserr offset buffer fresh).trace.findIdx Event.isWriteOff
        < (get_config kern oserr offset buffer fresh).trace.findIdx Event.isWriteLen)
    ∧ ((get_config kern oserr offset buffer fresh).trace.findIdx Event.isWriteLen
        < (get_config kern oserr offset buffer fresh).trace.findIdx Event.isDrain)
    ∧ ((set_config kern2 oserr2 offset2 buffer2).trace.findIdx Event.isWriteOff
        < (set_config kern2 oserr2 offset2 buffer2).trace.findIdx Event.isWriteLen)
    ∧ ((set_config kern2 oserr2 offset2 buffer2).trace.findIdx Event.isWriteLen
        < (set_config kern2 oserr2 offset2 buffer2).trace.findIdx Event.isFill)
    ∧ ((get_config kern oserr offset [] fresh).trace.findIdx Event.isWriteOff
        < (get_config kern oserr offset [] fresh).trace.findIdx Event.isWriteLen)
    ∧ ((get_config kern oserr offset [] fresh).trace.findIdx Event.isWriteLen
        < (get_config kern oserr offset [] fresh).trace.findIdx Event.isDrain)
    ∧ ((set_config kern2 oserr2 offset2 []).trace.findIdx Event.isWriteOff
        < (set_config kern2 oserr2 offset2 []).trace.findIdx Event.isWriteLen)
    ∧ ((set_config kern2 oserr2 offset2 []).trace.findIdx Event.isWriteLen
        < (set_config kern2 oserr2 offset2 []).trace.findIdx Event.isFill) :=
  ⟨rfl, rfl, of_decide_eq_true rfl, of_decide_eq_true rfl, of_decide_eq_true rfl,
   of_decide_eq_true rfl, of_decide_eq_true rfl, of_decide_eq_true rfl,
   of_decide_eq_true rfl, of_decide_eq_true rfl⟩

/-- Claim C8: for every `queue_index` and every `enabled`, `set_vring_enable`
sends a `vhost_vring_state` whose `index` field is `queue_index` cast to
`u32` and whose `num` field is 1 when `enabled` is true and 0 when it is
false, under the `VHOST_VDPA_SET_VRING_ENABLE` request code, and it issues
the request unconditionally — no upper bound on `queue_index` is checked
before the single kernel request. -/
theorem set_vring_enable_payload (kern : Nat → vhost_vring_state → Int)
    (oserr queue_index : Nat) (enabled : Bool) :
    ((set_vring_enable kern oserr queue_index enabled).sent =
      { index := queue_index % 2 ^ 32, num := if enabled then 1 else 0 })
    ∧ ((set_vring_enable kern oserr queue_index enabled).reqCode =
        VHOST_VDPA_SET_VRING_ENABLE)
    ∧ ((set_vring_enable kern oserr queue_index enabled).trace.countP Event.isIoctl = 1) :=
  ⟨rfl, rfl, rfl⟩

/-- Claim C9: `VhostKernVdpa::new` opens the device node with read and write
access and both `O_NONBLOCK` and `O_CLOEXEC` set in the custom flags; an OS
open failure `e` is returned as `VhostOpen e`, and a successful open returns
a handle storing the new descriptor and the address-space reference. -/
theorem new_open_flags (AS : Type) (os : OpenFlags → String → Except Nat Nat)
    (path : String) (mem : AS) :
    (open_flags.read = true)
    ∧ (open_flags.write = true)
    ∧ (open_flags.custom_flags &&& O_NONBLOCK = O_NONBLOCK)
    ∧ (open_flags.custom_flags &&& O_CLOEXEC = O_CLOEXEC)
    ∧ (∀ e, os open_flags path = Except.error e →
        VhostKernVdpa.new os path mem = Except.error (VhostError.VhostOpen e))
    ∧ (∀ fd, os open_flags path = Except.ok fd →
        VhostKernVdpa.new os path mem = Except.ok { fd := fd, mem := mem }) := by
  refine ⟨rfl, rfl, by decide, by decide, ?_, ?_⟩
  · intro e h
    unfold VhostKernVdpa.new
    rw [h]
  · intro fd h
    unfold VhostKernVdpa.new
    rw [h]

/-- Claim C9 witness: at a concrete succeeding OS open the handle stores the
descriptor and the memory reference, and at a concrete failing OS open the
OS error 13 comes back wrapped in `VhostOpen`. -/
theorem new_open_flags_witness :
    (VhostKernVdpa.new (fun _ _ => Except.ok 3) "a" (7 : Nat) =
      Except.ok { fd := 3, mem := 7 })
    ∧ (VhostKernVdpa.new (fun _ _ => Except.error 13) "a" (7 : Nat) =
      Except.error (VhostError.VhostOpen 13)) :=
  ⟨(new_open_flags Nat (fun _ _ => Except.ok 3) "a" 7).2.2.2.2.2 3 rfl,
   (new_open_flags Nat (fun _ _ => Except.error 13) "a" 7).2.2.2.2.1 13 rfl⟩

/-- Claim C10: whenever the kernel leaves the trailing region at its
allocated length (it writes in place, so it always does), the caller buffer
after `get_config` equals the trailing region of the block as the kernel
left it — with no condition on the return code, so on a failed request the
buffer is likewise overwritten with the trailing region's contents. -/
theorem get_config_unconditional_copy
    (kern : Nat → vhost_vdpa_config → Int × vhost_vdpa_config)
    (oserr offset : Nat) (buffer : List Nat) (fresh : Nat → Nat)
    (h : (get_config kern oserr offset buffer fresh).retBlock.buf.length = buffer.length) :
    (get_config kern oserr offset buffer fresh).buffer =
      (get_config kern oserr offset buffer fresh).retBlock.buf := by
  show (get_config kern oserr offset buffer fresh).retBlock.buf.take buffer.length =
    (get_config kern oserr offset buffer fresh).retBlock.buf
  rw [← h]
  exact List.take_length _

/-- Claim C10 witness: with a kernel oracle that fails (returns -1) after
writing `[9, 9]` into the trailing region, `get_config` on the caller buffer
`[0, 0]` still overwrites it with `[9, 9]`, and the result is the wrapped
ioctl failure. -/
theorem get_config_unconditional_copy_witness :
    ((get_config (fun _ b => (-1, { off := b.off, len := b.len, buf := [9, 9] }))
        5 0 [0, 0] (fun _ => 0)).retBlock.buf.length = [(0 : Nat), 0].length)
    ∧ ((get_config (fun _ b => (-1, { off := b.off, len := b.len, buf := [9, 9] }))
        5 0 [0, 0] (fun _ => 0)).buffer =
       (get_config (fun _ b => (-1, { off := b.off, len := b.len, buf := [9, 9] }))
        5 0 [0, 0] (fun _ => 0)).retBlock.buf)
    ∧ ((get_config (fun _ b => (-1, { off := b.off, len := b.len, buf := [9, 9] }))
        5 0 [0, 0] (fun _ => 0)).buffer = [9, 9])
    ∧ ((get_config (fun _ b => (-1, { off := b.off, len := b.len, buf := [9, 9] }))
        5 0 [0, 0] (fun _ => 0)).result =
       Except.error (VhostError.IoctlError 5)) :=
  ⟨rfl,
   get_config_unconditional_copy (fun _ b => (-1, { off := b.off, len := b.len, buf := [9, 9] }))
     5 0 [0, 0] (fun _ => 0) rfl,
   rfl, rfl⟩

end Vdpa
